import Mathlib

/-!
Shallow embedding of the userland AIO disk vdev backend
(`lib/libzpool/vdev_disk_aio.c`): completion-time error mapping
(`vdev_disk_aio_done`), submission control flow (`vdev_disk_aio_start`),
device open and geometry (`vdev_disk_aio_open`), and the poller/teardown
protocol (`vdev_disk_aio_poll` / `vdev_disk_aio_fini`), together with
theorems about the embedded definitions.
-/

/-- Linux errno value `EINVAL`. -/
def EINVAL : Int := 22

/-- Linux errno value `ENXIO`. -/
def ENXIO : Int := 6

/-- Linux errno value `EAGAIN`. -/
def EAGAIN : Int := 11

/-- Linux errno value `ENOSPC`. -/
def ENOSPC : Int := 28

/-- Linux errno value `ENOTSUP`. -/
def ENOTSUP : Int := 95

/-- The macro `SET_ERROR(e)` just returns `e`; its only side effect is tracing. -/
def SET_ERROR (e : Int) : Int := e

/-- Constant `SPA_MINBLOCKSIZE = 1 << SPA_MINBLOCKSHIFT = 1 << 9 = 512`,
the minimum supported block size. -/
def SPA_MINBLOCKSIZE : Nat := 512

/-- Modelled from the spec: `DKIOCFLUSHWRITECACHE`, "the supported flush
command", is declared outside the provided sources.  Its numeric value is
irrelevant here: the source only ever compares `zio->io_cmd` with it for
equality. -/
def DKIOCFLUSHWRITECACHE : Nat := 1058

/-- Conversion of a C signed value to `unsigned long` (64-bit): reduction
modulo 2^64, yielding the unsigned representative.  `vdev_disk_aio_done`
declares its `res` parameter `unsigned long` although the kernel reports a
signed completion result, so the signed result undergoes exactly this
conversion at the call boundary. -/
def toUnsigned64 (i : Int) : Nat := (i % (18446744073709551616 : Int)).toNat

/-- Conversion of an unsigned value to a C `int` (32-bit signed): truncate
modulo 2^32 and reinterpret the high half as negative.  This models the
assignment of the `unsigned long` expression `-res` to the `int` field
`zio->io_error`. -/
def toInt32 (n : Nat) : Int :=
  if n % 4294967296 < 2147483648 then ((n % 4294967296 : Nat) : Int)
  else ((n % 4294967296 : Nat) : Int) - 4294967296

/-- The zio operation types this backend can observe (`zio_type_t`). -/
inductive ZioType where
  | null
  | read
  | write
  | free
  | claim
  | ioctl
  deriving DecidableEq

/-- The two pipeline re-entry callbacks: `zio_interrupt` (deferred,
asynchronous continuation) and `zio_execute` (direct, synchronous
continuation). -/
inductive Reentry where
  | interrupt
  | execute
  deriving DecidableEq

/-- How a borrowed buffer is returned at completion time:
`abd_return_buf_copy` (copy out and release, reads) or `abd_return_buf`
(plain release, writes). -/
inductive BufReturnKind where
  | copyRelease
  | plainRelease
  deriving DecidableEq

/-- How a buffer is borrowed at submission time: `abd_borrow_buf_copy`
(copy in, writes) or `abd_borrow_buf` (empty staging buffer, reads). -/
inductive BorrowKind where
  | borrowCopy
  | borrow
  deriving DecidableEq

/-- Which `io_prep_*` call initialized the iocb. -/
inductive PrepKind where
  | fsync
  | pwrite
  | pread
  deriving DecidableEq

/-- The fields of `zio_t` consumed by this backend.  `io_error` is a C `int`;
`io_size` and `io_offset` are 64-bit unsigned. -/
structure Zio where
  io_type : ZioType
  io_cmd : Nat
  io_size : Nat
  io_offset : Nat
  io_error : Int
  deriving DecidableEq

/-- Observable effects of one call to `vdev_disk_aio_done`. -/
structure DoneEffects where
  io_error : Int
  bufReturned : Option BufReturnKind
  reentry : Reentry
  taskFreed : Bool
  deriving DecidableEq

/-- Embedding of `vdev_disk_aio_done(task, res)`.  The C parameter `res` is
declared `unsigned long` even though the kernel reports a signed result, so
the embedding first reduces the signed result modulo 2^64; the source's
`res < 0` test is consequently a comparison on that unsigned value (and the
`res != zio->io_size` test compares two 64-bit unsigned values). -/
def vdev_disk_aio_done (zio : Zio) (res : Int) : DoneEffects :=
  let resU : Nat := toUnsigned64 res
  if zio.io_type = ZioType.ioctl then
    { io_error :=
        if resU ≠ 0 then
          SET_ERROR (toInt32 ((18446744073709551616 - resU) % 18446744073709551616))
        else zio.io_error
      bufReturned := none
      reentry := Reentry.execute
      taskFreed := true }
  else
    { io_error :=
        if resU < 0 then
          SET_ERROR (toInt32 ((18446744073709551616 - resU) % 18446744073709551616))
        else if resU ≠ zio.io_size then SET_ERROR ENOSPC
        else zio.io_error
      bufReturned :=
        if zio.io_type = ZioType.read then some BufReturnKind.copyRelease
        else if zio.io_type = ZioType.write then some BufReturnKind.plainRelease
        else none
      reentry := if zio.io_type = ZioType.read then Reentry.interrupt else Reentry.execute
      taskFreed := true }

/-- Observable effects of one call to `vdev_disk_aio_start`.  `calls` lists
the pipeline re-entry callbacks invoked during the call itself, in order;
`taskFreed` / `bufReturnedAtStart` record whether the call itself released
the task / the borrowed buffer. -/
structure StartEffects where
  io_error : Int
  calls : List Reentry
  taskAllocated : Bool
  borrowed : Option BorrowKind
  prepared : Option PrepKind
  submitted : Bool
  taskFreed : Bool
  bufReturnedAtStart : Bool
  deriving DecidableEq

/-- Embedding of the tail of `vdev_disk_aio_start` from the `kmem_alloc` of
the task onward: iocb preparation switch, `io_submit`, and the two
submission-failure checks.  `preCalls` are callbacks already invoked before
this point (the unsupported-kind `default:` arm of the first switch invokes
`zio_interrupt` and then merely `break`s, falling through to this code).
`submitRet` is the value returned by `io_submit`. -/
def submitPart (zio : Zio) (preCalls : List Reentry) (submitRet : Int) : StartEffects :=
  let borrowed : Option BorrowKind :=
    match zio.io_type with
    | ZioType.write => some BorrowKind.borrowCopy
    | ZioType.read => some BorrowKind.borrow
    | _ => none
  let prepared : Option PrepKind :=
    match zio.io_type with
    | ZioType.ioctl => some PrepKind.fsync
    | ZioType.write => some PrepKind.pwrite
    | ZioType.read => some PrepKind.pread
    | _ => none
  if submitRet = 0 then
    { io_error := SET_ERROR EAGAIN, calls := preCalls ++ [Reentry.interrupt],
      taskAllocated := true, borrowed := borrowed, prepared := prepared,
      submitted := true, taskFreed := false, bufReturnedAtStart := false }
  else if submitRet < 0 then
    { io_error := SET_ERROR (-submitRet), calls := preCalls ++ [Reentry.interrupt],
      taskAllocated := true, borrowed := borrowed, prepared := prepared,
      submitted := true, taskFreed := false, bufReturnedAtStart := false }
  else
    { io_error := zio.io_error, calls := preCalls,
      taskAllocated := true, borrowed := borrowed, prepared := prepared,
      submitted := true, taskFreed := false, bufReturnedAtStart := false }

/-- Embedding of `vdev_disk_aio_start(zio)`.  `readable` is the value of
`vdev_readable(vd)`, `nocacheflush` the global `zfs_nocacheflush`, and
`submitRet` the value `io_submit` would return if reached.  Note the
source's first switch: the `ZIO_TYPE_IOCTL` arm returns on its failure
paths, but the `default:` (unsupported kind) arm sets `io_error`, calls
`zio_interrupt`, and then `break`s, so control falls through to the task
allocation and submission code. -/
def vdev_disk_aio_start (zio : Zio) (readable nocacheflush : Bool) (submitRet : Int) :
    StartEffects :=
  match zio.io_type with
  | ZioType.ioctl =>
    if readable = false then
      { io_error := SET_ERROR ENXIO, calls := [Reentry.interrupt], taskAllocated := false,
        borrowed := none, prepared := none, submitted := false, taskFreed := false,
        bufReturnedAtStart := false }
    else if zio.io_cmd ≠ DKIOCFLUSHWRITECACHE then
      { io_error := SET_ERROR ENOTSUP, calls := [Reentry.execute], taskAllocated := false,
        borrowed := none, prepared := none, submitted := false, taskFreed := false,
        bufReturnedAtStart := false }
    else if nocacheflush = true then
      { io_error := zio.io_error, calls := [Reentry.execute], taskAllocated := false,
        borrowed := none, prepared := none, submitted := false, taskFreed := false,
        bufReturnedAtStart := false }
    else submitPart zio [] submitRet
  | ZioType.write => submitPart zio [] submitRet
  | ZioType.read => submitPart zio [] submitRet
  | _ => submitPart { zio with io_error := SET_ERROR ENOTSUP } [Reentry.interrupt] submitRet

/-- Path check performed by `vdev_disk_aio_open`: the C condition is
`vdev_path == NULL || vdev_path[0] != '/'`; this is the absoluteness part
(first character is a slash; an empty string has no such character). -/
def pathAbs : List Char → Bool
  | [] => false
  | c :: _ => c == '/'

deriving instance DecidableEq for Except

/-- Environment of one `vdev_disk_aio_open` call: result of `open(2)`
(`Except.error errno` or `Except.ok fd`) and of the three geometry ioctls
`BLKSSZGET`, `BLKGETSIZE64` and `BLKROTATIONAL` (`Except.error errno` or
`Except.ok value`). -/
structure OpenEnv where
  openRes : Except Nat Nat
  sszRes : Except Nat Nat
  sizeRes : Except Nat Nat
  rotRes : Except Nat Nat
  deriving DecidableEq

/-- The `vdev_stat.vs_aux` values this file can set. -/
inductive VdevAux where
  | auxNone
  | badLabel
  | openFailed
  deriving DecidableEq

/-- The vdev state consumed by `vdev_disk_aio_open`: path, existing handle
(`vdev_tsd`, carrying its file descriptor), and the reopening flag. -/
structure VdState where
  path : Option (List Char)
  tsd : Option Nat
  reopening : Bool
  deriving DecidableEq

/-- Observable outcome of one `vdev_disk_aio_open` call.  `tsd` is the
handle associated with the vdev after the call; `fdClosed` records whether
the call executed `close(vda->vda_fd)`; `handleFreed` whether it executed
`kmem_free(vda, ...)`; the remaining fields are the caller-visible output
parameters (`none` when the corresponding store was not reached). -/
structure OpenOutcome where
  ret : Int
  tsd : Option Nat
  fdClosed : Bool
  handleFreed : Bool
  vs_aux : VdevAux
  psize : Option Nat
  max_psize : Option Nat
  ashift : Option Nat
  nonrot : Option Bool
  deriving DecidableEq

/-- Fuel-indexed helper for `highbit64` on a 64-bit value: number of binary
digits, computed by repeated halving (64 halvings suffice for any 64-bit
value). -/
def highbit64Aux : Nat → Nat → Nat
  | 0, _ => 0
  | fuel + 1, n => if n = 0 then 0 else highbit64Aux fuel (n / 2) + 1

/-- Modelled from the spec: `highbit64` (defined outside the provided
sources) returns the index of the highest set bit of a 64-bit value plus
one, i.e. its number of binary digits, and 0 for 0; the spec describes the
resulting `highbit64(MAX(...)) - 1` as the "log2 exponent" of the sector
size. -/
def highbit64 (n : Nat) : Nat := highbit64Aux 64 n

/-- Embedding of the `skip_open:` tail of `vdev_disk_aio_open`: the three
geometry ioctls, the ashift normalization, and the output stores.  `tsd` is
the handle associated with the vdev on entry to this code (already set for
both the fresh-open and the reopen path).  On any ioctl failure the source
closes the descriptor and returns `errno`, but neither frees the handle nor
clears `vd->vdev_tsd`. -/
def skip_open (tsd : Option Nat) (env : OpenEnv) : OpenOutcome :=
  match env.sszRes with
  | Except.error e =>
    { ret := SET_ERROR (e : Int), tsd := tsd, fdClosed := true, handleFreed := false,
      vs_aux := VdevAux.openFailed, psize := none, max_psize := none, ashift := none,
      nonrot := none }
  | Except.ok ssz =>
    match env.sizeRes with
    | Except.error e =>
      { ret := SET_ERROR (e : Int), tsd := tsd, fdClosed := true, handleFreed := false,
        vs_aux := VdevAux.openFailed, psize := none, max_psize := none, ashift := some ssz,
        nonrot := none }
    | Except.ok psz =>
      match env.rotRes with
      | Except.error e =>
        { ret := SET_ERROR (e : Int), tsd := tsd, fdClosed := true, handleFreed := false,
          vs_aux := VdevAux.openFailed, psize := some psz, max_psize := none,
          ashift := some ssz, nonrot := none }
      | Except.ok isrot =>
        { ret := 0, tsd := tsd, fdClosed := false, handleFreed := false,
          vs_aux := VdevAux.auxNone, psize := some psz, max_psize := some psz,
          ashift := some (highbit64 (max ssz SPA_MINBLOCKSIZE) - 1),
          nonrot := some (isrot == 0) }

/-- Embedding of `vdev_disk_aio_open(vd, psize, max_psize, ashift)`: path
validation, fresh open versus reopen (`vd->vdev_tsd` already set), then the
shared `skip_open:` geometry code.  On a fresh open the source stores the
new handle into `vd->vdev_tsd` before reaching `skip_open:`. -/
def vdev_disk_aio_open (vd : VdState) (env : OpenEnv) : OpenOutcome :=
  match vd.path with
  | none =>
    { ret := SET_ERROR EINVAL, tsd := vd.tsd, fdClosed := false, handleFreed := false,
      vs_aux := VdevAux.badLabel, psize := none, max_psize := none, ashift := none,
      nonrot := none }
  | some p =>
    if pathAbs p = false then
      { ret := SET_ERROR EINVAL, tsd := vd.tsd, fdClosed := false, handleFreed := false,
        vs_aux := VdevAux.badLabel, psize := none, max_psize := none, ashift := none,
        nonrot := none }
    else
      match vd.tsd with
      | some fd => skip_open (some fd) env
      | none =>
        match env.openRes with
        | Except.error e =>
          { ret := SET_ERROR (e : Int), tsd := none, fdClosed := false, handleFreed := true,
            vs_aux := VdevAux.openFailed, psize := none, max_psize := none, ashift := none,
            nonrot := none }
        | Except.ok fd => skip_open (some fd) env

/-- Predicate: in environment `env` some geometry ioctl fails with `errno`
`e`, and it is the first one to fail (the source returns at the first
failure). -/
def geomFail (env : OpenEnv) (e : Nat) : Prop :=
  env.sszRes = Except.error e ∨
  (∃ s, env.sszRes = Except.ok s ∧ env.sizeRes = Except.error e) ∨
  (∃ s z, env.sszRes = Except.ok s ∧ env.sizeRes = Except.ok z ∧
    env.rotRes = Except.error e)

/-- Program counter of the poller task `vdev_disk_aio_poll`: at the top of
the `while (!stop_polling)` loop (`running`), inside `io_getevents` and the
subsequent completion dispatch (`polling`), or past the loop with
`poller_tid` cleared (`exited`). -/
inductive PollerPc where
  | running
  | polling
  | exited
  deriving DecidableEq

/-- Program counter of a thread executing `vdev_disk_aio_fini`: before the
`stop_polling = B_TRUE` store (`start`), inside the
`while (poller_tid != 0) nanosleep(...)` wait (`waiting`), or past
`io_destroy` (`finished`). -/
inductive FiniPc where
  | start
  | waiting
  | finished
  deriving DecidableEq

/-- Shared state of the teardown protocol: the two volatile globals
`stop_polling` and `poller_tid` (0 meaning cleared), whether the kernel
queue `io_ctx` is still alive (not yet `io_destroy`ed), and the two program
counters. -/
structure AioCtxState where
  stopPolling : Bool
  pollerTid : Nat
  queueAlive : Bool
  poller : PollerPc
  fini : FiniPc
  deriving DecidableEq

/-- Interleaved small-step semantics of the poller loop and of
`vdev_disk_aio_fini`.  The poller either observes a clear stop flag and
enters `io_getevents` (`pollEnter`), returns from a poll round and loops
(`pollReturn`), exits on an unrecoverable poll failure (`pollFail`), or
observes the stop flag, frees its event array, clears `poller_tid` and
exits (`pollStopSeen`).  The fini thread sets the stop flag
(`finiSetStop`), sleeps while `poller_tid` is nonzero (`finiSleep`), and
destroys the queue only once `poller_tid` reads 0 (`finiDestroy`). -/
inductive AioStep : AioCtxState → AioCtxState → Prop where
  | pollEnter : ∀ s, s.poller = PollerPc.running → s.stopPolling = false →
      AioStep s { s with poller := PollerPc.polling }
  | pollReturn : ∀ s, s.poller = PollerPc.polling →
      AioStep s { s with poller := PollerPc.running }
  | pollFail : ∀ s, s.poller = PollerPc.polling →
      AioStep s { s with pollerTid := 0, poller := PollerPc.exited }
  | pollStopSeen : ∀ s, s.poller = PollerPc.running → s.stopPolling = true →
      AioStep s { s with pollerTid := 0, poller := PollerPc.exited }
  | finiSetStop : ∀ s, s.fini = FiniPc.start →
      AioStep s { s with stopPolling := true, fini := FiniPc.waiting }
  | finiSleep : ∀ s, s.fini = FiniPc.waiting → s.pollerTid ≠ 0 →
      AioStep s s
  | finiDestroy : ∀ s, s.fini = FiniPc.waiting → s.pollerTid = 0 →
      AioStep s { s with queueAlive := false, fini := FiniPc.finished }

/-- State at entry to `vdev_disk_aio_fini` after a successful
`vdev_disk_aio_init`: stop flag clear, poller running with recorded
identity `t`, queue alive. -/
def finiEntry (t : Nat) : AioCtxState :=
  { stopPolling := false, pollerTid := t, queueAlive := true,
    poller := PollerPc.running, fini := FiniPc.start }

/-- Invariant of the teardown protocol. -/
def aioInv (s : AioCtxState) : Prop :=
  (s.poller ≠ PollerPc.exited → s.pollerTid ≠ 0) ∧
  (s.fini ≠ FiniPc.start → s.stopPolling = true) ∧
  (s.queueAlive = false → s.fini = FiniPc.finished ∧ s.pollerTid = 0)

/-! ### Helper lemmas -/

theorem highbit64Aux_zero (fuel : Nat) : highbit64Aux fuel 0 = 0 := by
  cases fuel <;> simp [highbit64Aux]

theorem highbit64Aux_eq_log2 (fuel : Nat) : ∀ n : Nat, 0 < n → n < 2 ^ fuel →
    highbit64Aux fuel n = Nat.log2 n + 1 := by
  induction fuel with
  | zero =>
    intro n h0 hf
    simp at hf
    omega
  | succ f ih =>
    intro n h0 hf
    have hne : n ≠ 0 := by omega
    simp only [highbit64Aux, if_neg hne]
    by_cases h1 : n = 1
    · subst h1
      simp [highbit64Aux_zero, Nat.log2_eq_log_two, Nat.log_one_right]
    · have h2 : 2 ≤ n := by omega
      have hdiv : n / 2 < 2 ^ f := by
        have hx : n < 2 ^ f * 2 := by rw [← pow_succ]; exact hf
        omega
      have hpos : 0 < n / 2 := by omega
      rw [ih (n / 2) hpos hdiv]
      have hlog : Nat.log2 n = Nat.log2 (n / 2) + 1 := by
        rw [Nat.log2_eq_log_two, Nat.log2_eq_log_two, Nat.log_div_base]
        have hp := Nat.log_pos (b := 2) (by norm_num) h2
        omega
      omega

theorem highbit64_eq_log2 (n : Nat) (h0 : 0 < n) (h64 : n < 18446744073709551616) :
    highbit64 n = Nat.log2 n + 1 := by
  have : n < 2 ^ 64 := by norm_num; omega
  exact highbit64Aux_eq_log2 64 n h0 this

theorem skip_open_geomFail (t : Option Nat) (env : OpenEnv) (e : Nat) (h : geomFail env e) :
    (skip_open t env).ret = SET_ERROR (e : Int) ∧ (skip_open t env).fdClosed = true ∧
    (skip_open t env).handleFreed = false ∧ (skip_open t env).tsd = t ∧
    (skip_open t env).vs_aux = VdevAux.openFailed := by
  obtain ⟨o, q1, q2, q3⟩ := env
  rcases h with h1 | ⟨s, h1, h2⟩ | ⟨s, z, h1, h2, h3⟩ <;> simp_all [skip_open]

/-! ### Claim theorems -/

/-- C1 (code bug witness): completion handling for a data operation whose
kernel signed result is negative records `ENOSPC`, not the corresponding OS
error.  The claim says a negative result maps to an OS-error condition, but
`vdev_disk_aio_done` declares `res` as `unsigned long`, so its `res < 0`
test never fires and the negative result falls into the short-transfer
branch: at a read of 4096 bytes with kernel result `-5` the recorded error
is `ENOSPC = 28`, not the OS error `5`. -/
theorem c1_negative_result_records_enospc :
    (vdev_disk_aio_done
      { io_type := ZioType.read, io_cmd := 0, io_size := 4096, io_offset := 0, io_error := 0 }
      (-5)).io_error = SET_ERROR ENOSPC ∧ SET_ERROR ENOSPC ≠ SET_ERROR 5 := by
  decide

/-- C2 (code bug witness): a pipeline request of an unsupported kind is not
rejected without side effects.  The `default:` arm of the first switch in
`vdev_disk_aio_start` sets `ENOTSUP` and calls `zio_interrupt`, but then
`break`s instead of returning, so control falls through: a task IS
allocated, no `io_prep_*` call initializes the iocb (the second switch's
`default:` is `ASSERT(0)`, a no-op in production), and `io_submit` IS
called — contradicting the claim that no Task is allocated and nothing is
submitted. -/
theorem c2_unsupported_kind_allocates_and_submits :
    (vdev_disk_aio_start
      { io_type := ZioType.null, io_cmd := 0, io_size := 4096, io_offset := 0, io_error := 0 }
      true false 1) =
    { io_error := SET_ERROR ENOTSUP, calls := [Reentry.interrupt], taskAllocated := true,
      borrowed := none, prepared := none, submitted := true, taskFreed := false,
      bufReturnedAtStart := false } := by
  decide

/-- C3 (code bug witness): when `io_submit` accepts zero control blocks the
request settles with `EAGAIN`, and when it returns a negative value the
request settles with the corresponding OS error — that much the claim gets
right — but on both paths `vdev_disk_aio_start` returns without freeing the
task or returning the borrowed buffer (both are released only by
`vdev_disk_aio_done`, which never runs for an unsubmitted operation), so
the Task and the buffer leak, contradicting the claim. -/
theorem c3_submit_failure_settles_but_leaks :
    ((vdev_disk_aio_start
        { io_type := ZioType.write, io_cmd := 0, io_size := 4096, io_offset := 0, io_error := 0 }
        true false 0).io_error = SET_ERROR EAGAIN ∧
      (vdev_disk_aio_start
        { io_type := ZioType.write, io_cmd := 0, io_size := 4096, io_offset := 0, io_error := 0 }
        true false 0).calls = [Reentry.interrupt] ∧
      (vdev_disk_aio_start
        { io_type := ZioType.write, io_cmd := 0, io_size := 4096, io_offset := 0, io_error := 0 }
        true false 0).borrowed = some BorrowKind.borrowCopy ∧
      (vdev_disk_aio_start
        { io_type := ZioType.write, io_cmd := 0, io_size := 4096, io_offset := 0, io_error := 0 }
        true false 0).taskFreed = false ∧
      (vdev_disk_aio_start
        { io_type := ZioType.write, io_cmd := 0, io_size := 4096, io_offset := 0, io_error := 0 }
        true false 0).bufReturnedAtStart = false) ∧
    ((vdev_disk_aio_start
        { io_type := ZioType.write, io_cmd := 0, io_size := 4096, io_offset := 0, io_error := 0 }
        true false (-5)).io_error = SET_ERROR 5 ∧
      (vdev_disk_aio_start
        { io_type := ZioType.write, io_cmd := 0, io_size := 4096, io_offset := 0, io_error := 0 }
        true false (-5)).taskFreed = false ∧
      (vdev_disk_aio_start
        { io_type := ZioType.write, io_cmd := 0, io_size := 4096, io_offset := 0, io_error := 0 }
        true false (-5)).bufReturnedAtStart = false) := by
  decide

/-- C4 counterexample: geometry-refresh failure does NOT fully unwind.  On a
fresh open (path `/d`, `open` returned fd 3) whose `BLKSSZGET` ioctl fails
with errno 5, the handle is not freed and remains associated with the vdev
(`vdev_tsd` still holds it), contradicting "the handle is discarded, and no
partial handle remains associated with the vdev"; and on a reopen of an
existing handle (fd 7) the descriptor IS closed, contradicting "on a reopen
of an existing handle the descriptor is not closed". -/
theorem c4_counterexample :
    ((vdev_disk_aio_open { path := some ['/', 'd'], tsd := none, reopening := false }
        { openRes := Except.ok 3, sszRes := Except.error 5, sizeRes := Except.ok 4096,
          rotRes := Except.ok 0 }).handleFreed = false ∧
      (vdev_disk_aio_open { path := some ['/', 'd'], tsd := none, reopening := false }
        { openRes := Except.ok 3, sszRes := Except.error 5, sizeRes := Except.ok 4096,
          rotRes := Except.ok 0 }).tsd = some 3) ∧
    (vdev_disk_aio_open { path := some ['/', 'd'], tsd := some 7, reopening := true }
        { openRes := Except.ok 3, sszRes := Except.error 5, sizeRes := Except.ok 4096,
          rotRes := Except.ok 0 }).fdClosed = true := by
  decide

/-- C4 (amended): whenever any one of the three geometry queries fails
during `vdev_disk_aio_open`, the call surfaces the underlying OS error
code, marks the vdev `VDEV_AUX_OPEN_FAILED`, and closes the descriptor —
on a reopen of an existing handle just as on a fresh open — but it does
not free the handle: the handle (with its now-closed descriptor) remains
associated with the vdev. -/
theorem c4_geom_failure_closes_fd_keeps_handle (p : List Char) (tsd0 : Option Nat)
    (r : Bool) (fd e : Nat) (env : OpenEnv) (hp : pathAbs p = true)
    (hopen : env.openRes = Except.ok fd) (hfail : geomFail env e) :
    (vdev_disk_aio_open { path := some p, tsd := tsd0, reopening := r } env).ret =
      SET_ERROR (e : Int) ∧
    (vdev_disk_aio_open { path := some p, tsd := tsd0, reopening := r } env).fdClosed = true ∧
    (vdev_disk_aio_open { path := some p, tsd := tsd0, reopening := r } env).handleFreed =
      false ∧
    (vdev_disk_aio_open { path := some p, tsd := tsd0, reopening := r } env).tsd =
      some (tsd0.getD fd) ∧
    (vdev_disk_aio_open { path := some p, tsd := tsd0, reopening := r } env).vs_aux =
      VdevAux.openFailed := by
  have hsk := skip_open_geomFail (some (tsd0.getD fd)) env e hfail
  cases tsd0 with
  | none =>
    simp only [vdev_disk_aio_open, hp, Bool.true_eq_false, if_false, hopen, Option.getD] at *
    exact hsk
  | some f =>
    simp only [vdev_disk_aio_open, hp, Bool.true_eq_false, if_false, Option.getD] at *
    exact hsk

/-- C4 witness: the amended theorem applied to a concrete fresh open whose
`BLKSSZGET` query fails with errno 5. -/
theorem c4_geom_failure_closes_fd_keeps_handle_witness :
    (vdev_disk_aio_open { path := some ['/', 'd'], tsd := none, reopening := false }
      { openRes := Except.ok 3, sszRes := Except.error 5, sizeRes := Except.ok 4096,
        rotRes := Except.ok 0 }).ret = SET_ERROR (5 : Int) ∧
    (vdev_disk_aio_open { path := some ['/', 'd'], tsd := none, reopening := false }
      { openRes := Except.ok 3, sszRes := Except.error 5, sizeRes := Except.ok 4096,
        rotRes := Except.ok 0 }).fdClosed = true ∧
    (vdev_disk_aio_open { path := some ['/', 'd'], tsd := none, reopening := false }
      { openRes := Except.ok 3, sszRes := Except.error 5, sizeRes := Except.ok 4096,
        rotRes := Except.ok 0 }).handleFreed = false ∧
    (vdev_disk_aio_open { path := some ['/', 'd'], tsd := none, reopening := false }
      { openRes := Except.ok 3, sszRes := Except.error 5, sizeRes := Except.ok 4096,
        rotRes := Except.ok 0 }).tsd = some ((none : Option Nat).getD 3) ∧
    (vdev_disk_aio_open { path := some ['/', 'd'], tsd := none, reopening := false }
      { openRes := Except.ok 3, sszRes := Except.error 5, sizeRes := Except.ok 4096,
        rotRes := Except.ok 0 }).vs_aux = VdevAux.openFailed :=
  c4_geom_failure_closes_fd_keeps_handle ['/', 'd'] none false 3 5
    { openRes := Except.ok 3, sszRes := Except.error 5, sizeRes := Except.ok 4096,
      rotRes := Except.ok 0 } (by decide) rfl (Or.inl rfl)

/-- C5 counterexample: a control request (on a readable device) whose
command is not the supported flush command does NOT settle "as done with no
error recorded": `vdev_disk_aio_start` records `ENOTSUP = 95` in the
request's error field. -/
theorem c5_counterexample :
    (vdev_disk_aio_start
      { io_type := ZioType.ioctl, io_cmd := 0, io_size := 0, io_offset := 0, io_error := 0 }
      true false 1).io_error = SET_ERROR ENOTSUP ∧ SET_ERROR ENOTSUP ≠ 0 := by
  decide

/-- C5 (amended): for every control request on a readable device whose
command is not the supported flush command, submission settles the request
immediately with the "not supported" error (`ENOTSUP`) recorded on it, via
the direct (`zio_execute`) completion callback, without allocating a Task
and without submitting any operation to the kernel queue. -/
theorem c5_unsupported_control_settles_enotsup_direct (cmd sz off : Nat) (e0 : Int)
    (nc : Bool) (sr : Int) (hc : cmd ≠ DKIOCFLUSHWRITECACHE) :
    vdev_disk_aio_start
      { io_type := ZioType.ioctl, io_cmd := cmd, io_size := sz, io_offset := off,
        io_error := e0 } true nc sr =
    { io_error := SET_ERROR ENOTSUP, calls := [Reentry.execute], taskAllocated := false,
      borrowed := none, prepared := none, submitted := false, taskFreed := false,
      bufReturnedAtStart := false } := by
  simp [vdev_disk_aio_start, hc]

/-- C5 witness: the amended theorem applied to a concrete control request
with command 0 (not the flush command). -/
theorem c5_unsupported_control_settles_enotsup_direct_witness :
    vdev_disk_aio_start
      { io_type := ZioType.ioctl, io_cmd := 0, io_size := 0, io_offset := 0, io_error := 0 }
      true false 1 =
    { io_error := SET_ERROR ENOTSUP, calls := [Reentry.execute], taskAllocated := false,
      borrowed := none, prepared := none, submitted := false, taskFreed := false,
      bufReturnedAtStart := false } :=
  c5_unsupported_control_settles_enotsup_direct 0 0 0 0 false 1 (by decide)

/-- C6 counterexample: for a completed control (flush) operation a positive
(hence non-negative) kernel result is NOT left as success: with result `1`
the source's `res != 0` test fires and `vdev_disk_aio_done` records
`-(1) = -1` in the request's error field, which the claim says should be
left unchanged (here `0`). -/
theorem c6_counterexample :
    (vdev_disk_aio_done
      { io_type := ZioType.ioctl, io_cmd := 1058, io_size := 0, io_offset := 0, io_error := 0 }
      1).io_error = -1 ∧ (-1 : Int) ≠ 0 := by
  decide

/-- C6 (amended): for every completed control (flush) operation,
`vdev_disk_aio_done` tests `res != 0`, not `res < 0`: a zero result leaves
the request's error field unchanged, and ANY nonzero result — negative or
positive — records the negated result (for a negative result in the errno
range this is the corresponding positive OS error code; for a positive
result it is a negative value, not success). -/
theorem c6_flush_done_nonzero_records_negated_result (cmd sz off : Nat) (e0 res : Int)
    (hlo : -2147483648 < res) (hhi : res ≤ 2147483648) :
    (res = 0 →
      (vdev_disk_aio_done
        { io_type := ZioType.ioctl, io_cmd := cmd, io_size := sz, io_offset := off,
          io_error := e0 } res).io_error = e0) ∧
    (res ≠ 0 →
      (vdev_disk_aio_done
        { io_type := ZioType.ioctl, io_cmd := cmd, io_size := sz, io_offset := off,
          io_error := e0 } res).io_error = -res) := by
  constructor
  · intro h
    subst h
    simp [vdev_disk_aio_done, toUnsigned64]
  · intro hne
    have hresU : toUnsigned64 res ≠ 0 := by
      simp only [toUnsigned64]
      omega
    have h1 : (vdev_disk_aio_done
        { io_type := ZioType.ioctl, io_cmd := cmd, io_size := sz, io_offset := off,
          io_error := e0 } res).io_error =
        toInt32 ((18446744073709551616 - toUnsigned64 res) % 18446744073709551616) := by
      simp [vdev_disk_aio_done, hresU, SET_ERROR]
    rw [h1]
    simp only [toUnsigned64, toInt32]
    split
    · omega
    · omega

/-- C6 witness: the amended theorem applied at the concrete results `0` and
`-5`. -/
theorem c6_flush_done_nonzero_records_negated_result_witness :
    ((-5 : Int) = 0 →
      (vdev_disk_aio_done
        { io_type := ZioType.ioctl, io_cmd := 1058, io_size := 0, io_offset := 0,
          io_error := 0 } (-5)).io_error = 0) ∧
    ((-5 : Int) ≠ 0 →
      (vdev_disk_aio_done
        { io_type := ZioType.ioctl, io_cmd := 1058, io_size := 0, io_offset := 0,
          io_error := 0 } (-5)).io_error = -(-5)) :=
  c6_flush_done_nonzero_records_negated_result 1058 0 0 0 (-5) (by decide) (by decide)

/-- C7 counterexample: an immediate-failure settlement made at submission
time does NOT use the direct continuation: when a flush arrives for a
device that is not readable, `vdev_disk_aio_start` records `ENXIO` and
settles via `zio_interrupt` — the deferred continuation, not the direct
(`zio_execute`) one the claim requires for all immediate-failure paths. -/
theorem c7_counterexample :
    (vdev_disk_aio_start
      { io_type := ZioType.ioctl, io_cmd := 1058, io_size := 0, io_offset := 0, io_error := 0 }
      false false 1).io_error = SET_ERROR ENXIO ∧
    (vdev_disk_aio_start
      { io_type := ZioType.ioctl, io_cmd := 1058, io_size := 0, io_offset := 0, io_error := 0 }
      false false 1).calls = [Reentry.interrupt] ∧
    Reentry.interrupt ≠ Reentry.execute := by
  decide

/-- C7 (amended): after the error field is settled, completed reads re-enter
the pipeline via the deferred continuation (`zio_interrupt`) and completed
writes and controls via the direct continuation (`zio_execute`); but the
immediate settlements made at submission time are split: the
device-not-readable, unknown-request-kind, and failed-submission paths use
the DEFERRED continuation (`zio_interrupt`), while only the
unsupported-control and cache-flush-disabled paths use the direct
continuation (`zio_execute`). -/
theorem c7_reentry_paths :
    (∀ (cmd sz off : Nat) (e0 res : Int),
      (vdev_disk_aio_done
        { io_type := ZioType.read, io_cmd := cmd, io_size := sz, io_offset := off,
          io_error := e0 } res).reentry = Reentry.interrupt) ∧
    (∀ (cmd sz off : Nat) (e0 res : Int),
      (vdev_disk_aio_done
        { io_type := ZioType.write, io_cmd := cmd, io_size := sz, io_offset := off,
          io_error := e0 } res).reentry = Reentry.execute) ∧
    (∀ (cmd sz off : Nat) (e0 res : Int),
      (vdev_disk_aio_done
        { io_type := ZioType.ioctl, io_cmd := cmd, io_size := sz, io_offset := off,
          io_error := e0 } res).reentry = Reentry.execute) ∧
    (∀ (cmd sz off : Nat) (e0 : Int) (nc : Bool) (sr : Int),
      (vdev_disk_aio_start
        { io_type := ZioType.ioctl, io_cmd := cmd, io_size := sz, io_offset := off,
          io_error := e0 } false nc sr).calls = [Reentry.interrupt]) ∧
    (∀ (cmd sz off : Nat) (e0 : Int) (nc : Bool) (sr : Int), cmd ≠ DKIOCFLUSHWRITECACHE →
      (vdev_disk_aio_start
        { io_type := ZioType.ioctl, io_cmd := cmd, io_size := sz, io_offset := off,
          io_error := e0 } true nc sr).calls = [Reentry.execute]) ∧
    (∀ (sz off : Nat) (e0 sr : Int),
      (vdev_disk_aio_start
        { io_type := ZioType.ioctl, io_cmd := DKIOCFLUSHWRITECACHE, io_size := sz,
          io_offset := off, io_error := e0 } true true sr).calls = [Reentry.execute]) ∧
    (∀ t : ZioType, t = ZioType.null ∨ t = ZioType.free ∨ t = ZioType.claim →
      ∀ (cmd sz off : Nat) (e0 : Int) (r nc : Bool) (sr : Int), 0 < sr →
      (vdev_disk_aio_start
        { io_type := t, io_cmd := cmd, io_size := sz, io_offset := off,
          io_error := e0 } r nc sr).calls = [Reentry.interrupt]) ∧
    (∀ (cmd sz off : Nat) (e0 : Int) (r nc : Bool) (sr : Int), sr ≤ 0 →
      (vdev_disk_aio_start
        { io_type := ZioType.write, io_cmd := cmd, io_size := sz, io_offset := off,
          io_error := e0 } r nc sr).calls = [Reentry.interrupt]) ∧
    (∀ (cmd sz off : Nat) (e0 : Int) (r nc : Bool) (sr : Int), sr ≤ 0 →
      (vdev_disk_aio_start
        { io_type := ZioType.read, io_cmd := cmd, io_size := sz, io_offset := off,
          io_error := e0 } r nc sr).calls = [Reentry.interrupt]) ∧
    (∀ (cmd sz off : Nat) (e0 : Int) (r nc : Bool) (sr : Int), 0 < sr →
      (vdev_disk_aio_start
        { io_type := ZioType.write, io_cmd := cmd, io_size := sz, io_offset := off,
          io_error := e0 } r nc sr).calls = []) := by
  refine ⟨?_, ?_, ?_, ?_, ?_, ?_, ?_, ?_, ?_, ?_⟩
  · intro cmd sz off e0 res
    simp [vdev_disk_aio_done]
  · intro cmd sz off e0 res
    simp [vdev_disk_aio_done]
  · intro cmd sz off e0 res
    simp [vdev_disk_aio_done]
  · intro cmd sz off e0 nc sr
    simp [vdev_disk_aio_start]
  · intro cmd sz off e0 nc sr hc
    simp [vdev_disk_aio_start, hc]
  · intro sz off e0 sr
    simp [vdev_disk_aio_start]
  · intro t ht cmd sz off e0 r nc sr hsr
    have h0 : ¬ sr = 0 := by omega
    have h1 : ¬ sr < 0 := by omega
    rcases ht with h | h | h <;> subst h <;>
      simp [vdev_disk_aio_start, submitPart, h0, h1]
  · intro cmd sz off e0 r nc sr hsr
    by_cases h0 : sr = 0
    · simp [vdev_disk_aio_start, submitPart, h0]
    · have h1 : sr < 0 := by omega
      simp [vdev_disk_aio_start, submitPart, h0, h1]
  · intro cmd sz off e0 r nc sr hsr
    by_cases h0 : sr = 0
    · simp [vdev_disk_aio_start, submitPart, h0]
    · have h1 : sr < 0 := by omega
      simp [vdev_disk_aio_start, submitPart, h0, h1]
  · intro cmd sz off e0 r nc sr hsr
    have h0 : ¬ sr = 0 := by omega
    have h1 : ¬ sr < 0 := by omega
    simp [vdev_disk_aio_start, submitPart, h0, h1]

/-- C7 witness: the amended theorem applied at concrete inputs — a completed
read, a completed write, a completed flush, an unreadable-device flush, an
unsupported control, a disabled-cache flush, an unknown kind, and failed
and successful write submissions. -/
theorem c7_reentry_paths_witness :
    (vdev_disk_aio_done
      { io_type := ZioType.read, io_cmd := 0, io_size := 4096, io_offset := 0,
        io_error := 0 } 4096).reentry = Reentry.interrupt ∧
    (vdev_disk_aio_done
      { io_type := ZioType.write, io_cmd := 0, io_size := 4096, io_offset := 0,
        io_error := 0 } 4096).reentry = Reentry.execute ∧
    (vdev_disk_aio_done
      { io_type := ZioType.ioctl, io_cmd := 1058, io_size := 0, io_offset := 0,
        io_error := 0 } 0).reentry = Reentry.execute ∧
    (vdev_disk_aio_start
      { io_type := ZioType.ioctl, io_cmd := 1058, io_size := 0, io_offset := 0,
        io_error := 0 } false false 1).calls = [Reentry.interrupt] ∧
    (vdev_disk_aio_start
      { io_type := ZioType.ioctl, io_cmd := 0, io_size := 0, io_offset := 0,
        io_error := 0 } true false 1).calls = [Reentry.execute] ∧
    (vdev_disk_aio_start
      { io_type := ZioType.ioctl, io_cmd := DKIOCFLUSHWRITECACHE, io_size := 0, io_offset := 0,
        io_error := 0 } true true 1).calls = [Reentry.execute] ∧
    (vdev_disk_aio_start
      { io_type := ZioType.null, io_cmd := 0, io_size := 0, io_offset := 0,
        io_error := 0 } true false 1).calls = [Reentry.interrupt] ∧
    (vdev_disk_aio_start
      { io_type := ZioType.write, io_cmd := 0, io_size := 4096, io_offset := 0,
        io_error := 0 } true false 0).calls = [Reentry.interrupt] ∧
    (vdev_disk_aio_start
      { io_type := ZioType.read, io_cmd := 0, io_size := 4096, io_offset := 0,
        io_error := 0 } true false (-5)).calls = [Reentry.interrupt] ∧
    (vdev_disk_aio_start
      { io_type := ZioType.write, io_cmd := 0, io_size := 4096, io_offset := 0,
        io_error := 0 } true false 1).calls = [] :=
  ⟨c7_reentry_paths.1 0 4096 0 0 4096,
    c7_reentry_paths.2.1 0 4096 0 0 4096,
    c7_reentry_paths.2.2.1 1058 0 0 0 0,
    c7_reentry_paths.2.2.2.1 1058 0 0 0 false 1,
    c7_reentry_paths.2.2.2.2.1 0 0 0 0 false 1 (by decide),
    c7_reentry_paths.2.2.2.2.2.1 0 0 0 1,
    c7_reentry_paths.2.2.2.2.2.2.1 ZioType.null (Or.inl rfl) 0 0 0 0 true false 1 (by decide),
    c7_reentry_paths.2.2.2.2.2.2.2.1 0 4096 0 0 true false 0 (by decide),
    c7_reentry_paths.2.2.2.2.2.2.2.2.1 0 4096 0 0 true false (-5) (by decide),
    c7_reentry_paths.2.2.2.2.2.2.2.2.2 0 4096 0 0 true false 1 (by decide)⟩

/-- C8 (confirmed): on every successful open the ashift output equals the
floor of the base-2 logarithm of the reported sector size clamped below at
the minimum supported block size, `Nat.log2 (max ssz SPA_MINBLOCKSIZE)`
(the source computes `highbit64(MAX(ssz, SPA_MINBLOCKSIZE)) - 1`); in
particular when the reported sector size is below the minimum block size,
ashift equals `Nat.log2 SPA_MINBLOCKSIZE = 9`. -/
theorem c8_ashift_log2_clamped (p : List Char) (tsd0 : Option Nat) (r : Bool)
    (fd ssz psz isrot : Nat) (hp : pathAbs p = true)
    (hssz : ssz < 18446744073709551616) :
    (vdev_disk_aio_open { path := some p, tsd := tsd0, reopening := r }
      { openRes := Except.ok fd, sszRes := Except.ok ssz, sizeRes := Except.ok psz,
        rotRes := Except.ok isrot }).ret = 0 ∧
    (vdev_disk_aio_open { path := some p, tsd := tsd0, reopening := r }
      { openRes := Except.ok fd, sszRes := Except.ok ssz, sizeRes := Except.ok psz,
        rotRes := Except.ok isrot }).ashift =
      some (Nat.log2 (max ssz SPA_MINBLOCKSIZE)) ∧
    (ssz < SPA_MINBLOCKSIZE →
      (vdev_disk_aio_open { path := some p, tsd := tsd0, reopening := r }
        { openRes := Except.ok fd, sszRes := Except.ok ssz, sizeRes := Except.ok psz,
          rotRes := Except.ok isrot }).ashift = some (Nat.log2 SPA_MINBLOCKSIZE)) ∧
    Nat.log2 SPA_MINBLOCKSIZE = 9 := by
  have hmaxpos : 0 < max ssz SPA_MINBLOCKSIZE := by
    have : (0 : Nat) < SPA_MINBLOCKSIZE := by norm_num [SPA_MINBLOCKSIZE]
    omega
  have hmax64 : max ssz SPA_MINBLOCKSIZE < 18446744073709551616 := by
    have : SPA_MINBLOCKSIZE < 18446744073709551616 := by norm_num [SPA_MINBLOCKSIZE]
    omega
  have hhb := highbit64_eq_log2 (max ssz SPA_MINBLOCKSIZE) hmaxpos hmax64
  have hlog9 : Nat.log2 SPA_MINBLOCKSIZE = 9 := by
    have h29 : SPA_MINBLOCKSIZE = 2 ^ 9 := by norm_num [SPA_MINBLOCKSIZE]
    rw [Nat.log2_eq_log_two, h29, Nat.log_pow (by norm_num)]
  have hashift : highbit64 (max ssz SPA_MINBLOCKSIZE) - 1 =
      Nat.log2 (max ssz SPA_MINBLOCKSIZE) := by omega
  refine ⟨?_, ?_, ?_, hlog9⟩ <;> cases tsd0 <;>
    simp [vdev_disk_aio_open, hp, skip_open, hashift]
  · intro hlt
    rw [Nat.max_eq_right (Nat.le_of_lt hlt)]
  · intro hlt
    rw [Nat.max_eq_right (Nat.le_of_lt hlt)]

/-- C8 witness: the theorem applied to a concrete successful open with
reported sector size 256 (below the 512-byte minimum). -/
theorem c8_ashift_log2_clamped_witness :
    (vdev_disk_aio_open { path := some ['/', 'd'], tsd := none, reopening := false }
      { openRes := Except.ok 3, sszRes := Except.ok 256, sizeRes := Except.ok 1048576,
        rotRes := Except.ok 0 }).ret = 0 ∧
    (vdev_disk_aio_open { path := some ['/', 'd'], tsd := none, reopening := false }
      { openRes := Except.ok 3, sszRes := Except.ok 256, sizeRes := Except.ok 1048576,
        rotRes := Except.ok 0 }).ashift = some (Nat.log2 (max 256 SPA_MINBLOCKSIZE)) ∧
    ((256 : Nat) < SPA_MINBLOCKSIZE →
      (vdev_disk_aio_open { path := some ['/', 'd'], tsd := none, reopening := false }
        { openRes := Except.ok 3, sszRes := Except.ok 256, sizeRes := Except.ok 1048576,
          rotRes := Except.ok 0 }).ashift = some (Nat.log2 SPA_MINBLOCKSIZE)) ∧
    Nat.log2 SPA_MINBLOCKSIZE = 9 :=
  c8_ashift_log2_clamped ['/', 'd'] none false 3 256 1048576 0 (by decide) (by decide)

/-- C10 (confirmed): on every successful open the max-physical-size output
is set equal to the physical-size output (`*max_psize = *psize`): the
backend never reports a maximum size larger than the queried device
size. -/
theorem c10_max_psize_eq_psize (p : List Char) (tsd0 : Option Nat) (r : Bool)
    (fd ssz psz isrot : Nat) (hp : pathAbs p = true) :
    (vdev_disk_aio_open { path := some p, tsd := tsd0, reopening := r }
      { openRes := Except.ok fd, sszRes := Except.ok ssz, sizeRes := Except.ok psz,
        rotRes := Except.ok isrot }).ret = 0 ∧
    (vdev_disk_aio_open { path := some p, tsd := tsd0, reopening := r }
      { openRes := Except.ok fd, sszRes := Except.ok ssz, sizeRes := Except.ok psz,
        rotRes := Except.ok isrot }).max_psize =
    (vdev_disk_aio_open { path := some p, tsd := tsd0, reopening := r }
      { openRes := Except.ok fd, sszRes := Except.ok ssz, sizeRes := Except.ok psz,
        rotRes := Except.ok isrot }).psize ∧
    (vdev_disk_aio_open { path := some p, tsd := tsd0, reopening := r }
      { openRes := Except.ok fd, sszRes := Except.ok ssz, sizeRes := Except.ok psz,
        rotRes := Except.ok isrot }).max_psize = some psz := by
  cases tsd0 <;> simp [vdev_disk_aio_open, hp, skip_open]

/-- C10 witness: the theorem applied to a concrete successful open of a
1 MiB device. -/
theorem c10_max_psize_eq_psize_witness :
    (vdev_disk_aio_open { path := some ['/', 'd'], tsd := none, reopening := false }
      { openRes := Except.ok 3, sszRes := Except.ok 512, sizeRes := Except.ok 1048576,
        rotRes := Except.ok 0 }).ret = 0 ∧
    (vdev_disk_aio_open { path := some ['/', 'd'], tsd := none, reopening := false }
      { openRes := Except.ok 3, sszRes := Except.ok 512, sizeRes := Except.ok 1048576,
        rotRes := Except.ok 0 }).max_psize =
    (vdev_disk_aio_open { path := some ['/', 'd'], tsd := none, reopening := false }
      { openRes := Except.ok 3, sszRes := Except.ok 512, sizeRes := Except.ok 1048576,
        rotRes := Except.ok 0 }).psize ∧
    (vdev_disk_aio_open { path := some ['/', 'd'], tsd := none, reopening := false }
      { openRes := Except.ok 3, sszRes := Except.ok 512, sizeRes := Except.ok 1048576,
        rotRes := Except.ok 0 }).max_psize = some 1048576 :=
  c10_max_psize_eq_psize ['/', 'd'] none false 3 512 1048576 0 (by decide)

theorem aioInv_step {s s2 : AioCtxState} (hInv : aioInv s) (h : AioStep s s2) : aioInv s2 := by
  obtain ⟨h1, h2, h3⟩ := hInv
  cases h with
  | pollEnter hp hs =>
    exact ⟨fun _ => h1 (by simp [hp]), h2, h3⟩
  | pollReturn hp =>
    exact ⟨fun _ => h1 (by simp [hp]), h2, h3⟩
  | pollFail hp =>
    exact ⟨fun hne => absurd rfl hne, h2, fun hq => ⟨(h3 hq).1, rfl⟩⟩
  | pollStopSeen hp hs =>
    exact ⟨fun hne => absurd rfl hne, h2, fun hq => ⟨(h3 hq).1, rfl⟩⟩
  | finiSetStop hf =>
    refine ⟨h1, fun _ => rfl, fun hq => ?_⟩
    have hd := (h3 hq).1
    rw [hf] at hd
    simp at hd
  | finiSleep hf ht =>
    exact ⟨h1, h2, h3⟩
  | finiDestroy hf ht =>
    exact ⟨fun hne => absurd ht (h1 hne), fun _ => h2 (by simp [hf]), fun _ => ⟨rfl, ht⟩⟩

theorem aioInv_reachable {s0 s : AioCtxState} (h0 : aioInv s0)
    (h : Relation.ReflTransGen AioStep s0 s) : aioInv s := by
  induction h with
  | refl => exact h0
  | tail _ hstep ih => exact aioInv_step ih hstep

/-- C9 (confirmed): in the interleaved semantics of `vdev_disk_aio_fini`
and the poller, started from the state at entry to `fini` (poller running
with nonzero recorded identity `t`, stop flag clear, queue alive), every
reachable state in which the kernel queue has been destroyed is one in
which the stop flag has been set, the poller has exited and cleared its
recorded identity, and the fini thread has passed its wait loop: the
teardown sets the stop flag first, waits (sleeping) until the poller has
exited and cleared `poller_tid`, and only then destroys the queue — the
queue is never destroyed while the poller is still running. -/
theorem c9_queue_destroyed_only_after_poller_exit (t : Nat) (s : AioCtxState)
    (ht : t ≠ 0) (hreach : Relation.ReflTransGen AioStep (finiEntry t) s)
    (hdead : s.queueAlive = false) :
    s.stopPolling = true ∧ s.pollerTid = 0 ∧ s.poller = PollerPc.exited ∧
    s.fini = FiniPc.finished := by
  have hInv0 : aioInv (finiEntry t) := by
    refine ⟨fun _ => ?_, fun hf => ?_, fun hq => ?_⟩
    · simpa [finiEntry] using ht
    · simp [finiEntry] at hf
    · simp [finiEntry] at hq
  obtain ⟨h1, h2, h3⟩ := aioInv_reachable hInv0 hreach
  obtain ⟨hfin, htid⟩ := h3 hdead
  refine ⟨h2 (by simp [hfin]), htid, ?_, hfin⟩
  by_contra hne
  exact h1 hne htid

/-- C9 witness: the theorem applied to the concrete four-step trace
set-stop, poller-observes-stop-and-exits, destroy, from the entry state
with poller identity 1. -/
theorem c9_queue_destroyed_only_after_poller_exit_witness :
    ({ stopPolling := true, pollerTid := 0, queueAlive := false,
       poller := PollerPc.exited, fini := FiniPc.finished } : AioCtxState).stopPolling = true ∧
    ({ stopPolling := true, pollerTid := 0, queueAlive := false,
       poller := PollerPc.exited, fini := FiniPc.finished } : AioCtxState).pollerTid = 0 ∧
    ({ stopPolling := true, pollerTid := 0, queueAlive := false,
       poller := PollerPc.exited, fini := FiniPc.finished } : AioCtxState).poller =
      PollerPc.exited ∧
    ({ stopPolling := true, pollerTid := 0, queueAlive := false,
       poller := PollerPc.exited, fini := FiniPc.finished } : AioCtxState).fini =
      FiniPc.finished := by
  have h1 : AioStep (finiEntry 1)
      { stopPolling := true, pollerTid := 1, queueAlive := true,
        poller := PollerPc.running, fini := FiniPc.waiting } :=
    AioStep.finiSetStop (finiEntry 1) rfl
  have h2 : AioStep
      ({ stopPolling := true, pollerTid := 1, queueAlive := true,
         poller := PollerPc.running, fini := FiniPc.waiting } : AioCtxState)
      { stopPolling := true, pollerTid := 0, queueAlive := true,
        poller := PollerPc.exited, fini := FiniPc.waiting } :=
    AioStep.pollStopSeen _ rfl rfl
  have h3 : AioStep
      ({ stopPolling := true, pollerTid := 0, queueAlive := true,
         poller := PollerPc.exited, fini := FiniPc.waiting } : AioCtxState)
      { stopPolling := true, pollerTid := 0, queueAlive := false,
        poller := PollerPc.exited, fini := FiniPc.finished } :=
    AioStep.finiDestroy _ rfl rfl
  exact c9_queue_destroyed_only_after_poller_exit 1 _ (by decide)
    (Relation.ReflTransGen.tail
      (Relation.ReflTransGen.tail (Relation.ReflTransGen.tail Relation.ReflTransGen.refl h1)
        h2) h3) rfl
